import Mathlib

/-!
Shallow embedding of the ss-api capture service (Nabaikabaia/ss-api).

The repository has two variants of the same service:
* `src/index.js` — the primary variant: a shared browser engine launched
  asynchronously at process start, validation with a blocked-host list,
  screenshot and screenrecord endpoints streaming bytes back (ephemeral mode),
  and a periodic temp-file sweep.
* `src/unnamed/part_000` — a secondary variant: per-job browser launch,
  validation without a blocked-host list, artifacts served by reference
  under `/temp/<filename>` with timestamp-derived filenames.

Top-level definitions model `src/index.js`; the `Part000` namespace models
`src/unnamed/part_000`.  Each definition is translated statement by
statement from the JavaScript source.
-/

/-- Viewport dimensions of a device profile (`{ width, height }` objects in
the `deviceConfigs` tables of both variants). -/
structure Viewport where
  width : Nat
  height : Nat
deriving DecidableEq, Repr

/-- The `deviceConfigs` table shared verbatim by both variants
(index.js lines 34-40, part_000 lines 21-27).  JavaScript distinguishes a
missing key (`undefined`) from a key whose value is `null` (the `full`
entry), so the model returns `none` for a missing key, `some none` for the
`full: null` entry, and `some (some v)` for a viewport entry. -/
def deviceConfigs (name : String) : Option (Option Viewport) :=
  if name = "phone" then some (some ⟨375, 667⟩)
  else if name = "tablet" then some (some ⟨768, 1024⟩)
  else if name = "laptop" then some (some ⟨1366, 768⟩)
  else if name = "desktop" then some (some ⟨1920, 1080⟩)
  else if name = "full" then some none
  else none

/-- The `url` query parameter as the validator sees it after the
`new URL(url)` parse attempt: absent (or empty, which is falsy in JS),
present but failing to parse, or present and parsing to a URL whose
`hostname` field is the given string.  URL parsing itself is done by the
JavaScript runtime and is modelled as this pre-parsed input. -/
inductive RawUrl where
  | absent
  | malformed
  | wellFormed (hostname : String)
deriving DecidableEq, Repr

/-- The blocked-host list of index.js line 54. -/
def blockedHosts : List String := ["localhost", "127.0.0.1", "0.0.0.0"]

/-- The message index.js line 60 builds from `Object.keys(deviceConfigs)`. -/
def invalidDeviceMsg : String :=
  "Invalid device. Use: phone, tablet, laptop, desktop, full"

/-- `validateInput` of index.js lines 44-64.  Returns `some message` on
rejection and `none` (JS `null`) on acceptance.  Note the device check is
`!deviceConfigs[device]`: a truthiness test on the table value, which is
falsy both for a missing key (`undefined`) and for the `full` key whose
value is `null`. -/
def validateInput (url : RawUrl) (device : String) : Option String :=
  match url with
  | .absent => some "URL parameter is required"
  | .malformed => some "Invalid URL format"
  | .wellFormed hostname =>
    if hostname ∈ blockedHosts then
      some "Local or internal URLs are not allowed"
    else
      match deviceConfigs device with
      | some (some _) => none
      | _ => some invalidDeviceMsg

namespace Part000

/-- The message part_000 line 34 builds from `validDevices.join(', ')`. -/
def invalidDeviceMsg : String :=
  "Invalid device. Must be one of: phone, tablet, laptop, desktop, full"

/-- `validateInput` of part_000 lines 30-36.  This variant has no
blocked-host check at all, and its device check is key membership
(`validDevices.includes(device)`) guarded by JS truthiness of `device`
(an empty string is falsy and skips the check). -/
def validateInput (url : RawUrl) (device : String) : Option String :=
  match url with
  | .absent => some "URL parameter is required"
  | .malformed => some "Invalid URL format"
  | .wellFormed _ =>
    if device ≠ "" ∧ deviceConfigs device = none then
      some invalidDeviceMsg
    else
      none

end Part000

/-- Claim C1 (counterexample).  The claim says every loopback or link-local
literal hostname is rejected with the BlockedHost error.  In the primary
variant only the three exact strings of `blockedHosts` are checked: the
loopback literal 127.0.0.2 (inside 127.0.0.0/8) passes validation with a
valid device, and the part_000 variant does not even block 127.0.0.1. -/
theorem C1_counterexample :
    validateInput (RawUrl.wellFormed "127.0.0.2") "desktop" = none ∧
    Part000.validateInput (RawUrl.wellFormed "127.0.0.1") "desktop" = none := by
  constructor <;> rfl

/-- Claim C1 (amended).  In the primary variant, `validateInput` returns the
blocked-host error (and never success) exactly for hostnames that are one of
the three literal strings localhost, 127.0.0.1, 0.0.0.0, regardless of the
device parameter; other loopback or link-local literals are not blocked, and
the part_000 variant blocks no hosts at all. -/
theorem C1_amended (h d : String) (hh : h ∈ blockedHosts) :
    validateInput (RawUrl.wellFormed h) d =
      some "Local or internal URLs are not allowed" := by
  unfold validateInput
  simp [hh]

/-- Claim C1 (witness): the amended theorem applied at hostname 127.0.0.1
and device desktop. -/
theorem C1_amended_witness :
    validateInput (RawUrl.wellFormed "127.0.0.1") "desktop" =
      some "Local or internal URLs are not allowed" :=
  C1_amended "127.0.0.1" "desktop" (by decide)

/-- Claim C2 (code bug).  The claim — and the spec — say the device name
full is accepted by validation and resolves to the no-fixed-viewport
sentinel, with the invalid-device error reserved for strings that are not
keys of the table.  In the primary variant, full IS a key of the table
(value `null`, the sentinel, first conjunct below) yet `validateInput`
rejects it (second conjunct), because `!deviceConfigs[device]` tests
truthiness of the value and `null` is falsy.  The rejection message itself
lists full as a valid choice, and both endpoints contain
`device !== 'full'` branches that this makes unreachable, so the code
contradicts its own error message and downstream logic.  The part_000
variant checks key membership and accepts full (third conjunct). -/
theorem C2_code_bug :
    deviceConfigs "full" = some none ∧
    validateInput (RawUrl.wellFormed "example.com") "full" =
      some invalidDeviceMsg ∧
    Part000.validateInput (RawUrl.wellFormed "example.com") "full" = none := by
  refine ⟨rfl, rfl, ?_⟩
  rfl

/-- `Math.min(d, 30)` of index.js line 147, applied to
`const d = Number(duration)` after the integer check passed. -/
def recordDuration (d : Int) : Int := min d 30

/-- milliseconds slept by `await page.waitForTimeout(recordDuration * 1000)`
(index.js line 167), the recording-phase wall-clock wait. -/
def recordingWaitMs (d : Int) : Int := recordDuration d * 1000

/-- outcome of the pre-browser phase of a screenrecord request: either an
HTTP 400 validation rejection or proceeding to capture with the computed
recording duration in seconds. -/
inductive RecPrep where
  | err (msg : String)
  | proceed (durSecs : Int)
deriving DecidableEq, Repr

/-- the pre-browser phase of /api/screenrecord in index.js (lines 138-148):
validate url and device, then `const d = Number(duration)`, reject with 400
when `!Number.isInteger(d) || d <= 0`, else clamp with `Math.min(d, 30)`.
The `duration` query parameter (which upstream defaults to the string 10)
is modelled after `Number(...)`: `some n` when it is the integer n, `none`
when it is NaN or a non-integer number, either of which fails
`Number.isInteger`. -/
def screenrecordPrep (url : RawUrl) (device : String) (duration : Option Int) :
    RecPrep :=
  match validateInput url device with
  | some m => .err m
  | none =>
    match duration with
    | none => .err "Invalid duration value"
    | some d => if d ≤ 0 then .err "Invalid duration value" else .proceed (min d 30)

namespace Part000

/-- `const dur = Math.min(Number(duration) || 10, 30)` of part_000 line 129.
JavaScript `||` replaces any falsy left operand, so NaN (modelled `none`)
and 0 both become the default 10; no value is ever rejected. -/
def durParse (duration : Option Int) : Int :=
  min (match duration with
       | none => 10
       | some n => if n = 0 then 10 else n) 30

/-- milliseconds slept by `await page.waitForTimeout(dur * 1000)`
(part_000 line 147). -/
def recordingWaitMs (duration : Option Int) : Int := durParse duration * 1000

/-- the pre-browser phase of /api/screenrecord in part_000 (lines 127-131):
the duration is clamped or defaulted before validation, and validation
checks only url and device — there is no duration error path. -/
def screenrecordPrep (url : RawUrl) (device : String) (duration : Option Int) :
    RecPrep :=
  let dur := durParse duration
  match validateInput url device with
  | some m => .err m
  | none => .proceed dur

end Part000

/-- Claim C3.  For every positive requested duration d, the recording-phase
wall-clock wait is min(d, 30) seconds: it never exceeds 30 seconds and
never exceeds the requested d seconds, in both variants. -/
theorem C3_capped (d : Int) (hd : 0 < d) :
    recordingWaitMs d ≤ 30 * 1000 ∧
    recordingWaitMs d ≤ d * 1000 ∧
    Part000.recordingWaitMs (some d) ≤ 30 * 1000 := by
  refine ⟨?_, ?_, ?_⟩
  · exact mul_le_mul_of_nonneg_right (min_le_right d 30) (by norm_num)
  · exact mul_le_mul_of_nonneg_right (min_le_left d 30) (by norm_num)
  · have hne : d ≠ 0 := by omega
    unfold Part000.recordingWaitMs Part000.durParse
    simp only [hne, if_false]
    exact mul_le_mul_of_nonneg_right (min_le_right d 30) (by norm_num)

/-- Claim C3 (witness): the theorem at the requested duration 1000 — such a
request waits at most 30 seconds of recording time, never more. -/
theorem C3_capped_witness :
    recordingWaitMs 1000 ≤ 30 * 1000 ∧
    recordingWaitMs 1000 ≤ 1000 * 1000 ∧
    Part000.recordingWaitMs (some 1000) ≤ 30 * 1000 :=
  C3_capped 1000 (by norm_num)

/-- Claim C4 (counterexample).  The claim says every recording request with
a non-positive or non-integer durationSeconds gets an InvalidDuration
error.  The part_000 variant performs no duration validation: a request
with duration 0 (non-positive) proceeds to capture with the silently
substituted default of 10 seconds, and a request with a NaN duration
proceeds the same way. -/
theorem C4_counterexample :
    Part000.screenrecordPrep (RawUrl.wellFormed "example.com") "desktop" (some 0) =
      RecPrep.proceed 10 ∧
    Part000.screenrecordPrep (RawUrl.wellFormed "example.com") "desktop" none =
      RecPrep.proceed 10 := by
  constructor <;> rfl

/-- Claim C4 (amended).  In the primary variant (src/index.js), every
recording request that passes url/device validation and carries a
non-positive or non-integer durationSeconds is rejected with the
InvalidDuration error rather than defaulted or clamped; the part_000
variant has no duration validation and silently substitutes the default 10
for 0 or NaN and clamps the rest. -/
theorem C4_amended (url : RawUrl) (device : String) (duration : Option Int)
    (hv : validateInput url device = none)
    (hd : duration = none ∨ ∃ d, duration = some d ∧ d ≤ 0) :
    screenrecordPrep url device duration = RecPrep.err "Invalid duration value" := by
  unfold screenrecordPrep
  rw [hv]
  rcases hd with h | ⟨d, hdur, hle⟩
  · rw [h]
  · rw [hdur]
    simp [hle]

/-- Claim C4 (witness): the amended theorem at a valid url/device and the
non-positive requested duration 0. -/
theorem C4_amended_witness :
    screenrecordPrep (RawUrl.wellFormed "example.com") "desktop" (some 0) =
      RecPrep.err "Invalid duration value" :=
  C4_amended (RawUrl.wellFormed "example.com") "desktop" (some 0) rfl
    (Or.inr ⟨0, rfl, le_refl 0⟩)

/-- one awaited statement inside a handler's try block, classified by its
effect on the browsing-context resource: `acquire` is
`context = await browser.newContext(...)`, `close` is
`await context.close()`, `step` is any other statement (newPage,
setViewportSize, goto, waitForTimeout, screenshot, video path lookup,
readFileSync, response send, unlinkSync). -/
inductive Act where
  | acquire
  | close
  | step
deriving DecidableEq, Repr

/-- resource bookkeeping while a handler runs: whether the local `context`
variable has been assigned (its JS truthiness), how many times
`browser.newContext` was invoked, and how many times `context.close()` was
invoked. -/
structure ExecState where
  ctx : Bool
  acquires : Nat
  closes : Nat
deriving DecidableEq, Repr

/-- bookkeeping at entry of a handler: `let context;` unassigned. -/
def ExecState.init : ExecState := ⟨false, 0, 0⟩

/-- effect of a statement that completes normally. -/
def applyAct (s : ExecState) : Act → ExecState
  | .acquire => { s with ctx := true, acquires := s.acquires + 1 }
  | .close => { s with closes := s.closes + 1 }
  | .step => s

/-- effect of a statement that throws: `newContext` throwing (or being
called on an undefined browser) leaves `context` unassigned;
`context.close()` throwing has nevertheless been invoked; any other
throwing statement leaves the bookkeeping unchanged. -/
def applyThrow (s : ExecState) : Act → ExecState
  | .acquire => s
  | .close => { s with closes := s.closes + 1 }
  | .step => s

/-- run the statements of a try block given the index of the first
statement that throws (`none`, or an index at or past the end of the
block, means every statement completes).  Returns the final bookkeeping
and whether an exception escaped the block. -/
def runTry : List Act → Option Nat → ExecState → ExecState × Bool
  | [], _, s => (s, false)
  | a :: rest, none, s => runTry rest none (applyAct s a)
  | _a :: _rest, some 0, s => (applyThrow s _a, true)
  | a :: rest, some (i + 1), s => runTry rest (some i) (applyAct s a)

/-- the try block of /api/screenshot in index.js (lines 101-123), statement
by statement: newContext, newPage, setViewportSize, goto, waitForTimeout,
screenshot, response headers and send. -/
def ssTryActs : List Act :=
  [.acquire, .step, .step, .step, .step, .step, .step]

/-- the /api/screenshot handler of index.js after validation (lines
100-133): run the try block, then the finally clause
`if (context) await context.close()`, which runs on every path. -/
def ssHandlerExec (failAt : Option Nat) : ExecState :=
  let r := runTry ssTryActs failAt ExecState.init
  if r.1.ctx then { r.1 with closes := r.1.closes + 1 } else r.1

/-- the try block of /api/screenrecord in index.js (lines 150-182),
statement by statement: newContext (index 0), newPage, setViewportSize,
goto, waitForTimeout 2000, waitForTimeout for the recording duration,
page.video(), the explicit `await context.close()` (index 7), then
video.path(), readFileSync, response headers and send, unlinkSync
(indices 8-11). -/
def recTryActs : List Act :=
  [.acquire, .step, .step, .step, .step, .step, .step, .close,
   .step, .step, .step, .step]

/-- the /api/screenrecord handler of index.js after validation (lines
149-192): run the try block; there is no finally clause, but the catch
clause begins with `if (context) await context.close()`. -/
def recHandlerExec (failAt : Option Nat) : ExecState :=
  let r := runTry recTryActs failAt ExecState.init
  if r.2 && r.1.ctx then { r.1 with closes := r.1.closes + 1 } else r.1

/-- whether the given failure point lies after the explicit in-try close of
the screenrecord handler (indices 7 to 11: the close itself, video.path,
readFileSync, send, unlinkSync). -/
def failAfterClose : Option Nat → Bool
  | none => false
  | some i => decide (7 ≤ i) && decide (i < 12)

theorem runTry_ge_length (acts : List Act) (i : Nat) (s : ExecState)
    (h : acts.length ≤ i) :
    runTry acts (some i) s = runTry acts none s := by
  induction acts generalizing i s with
  | nil => rfl
  | cons a rest ih =>
    cases i with
    | zero => simp at h
    | succ j =>
      show runTry rest (some j) (applyAct s a) = runTry rest none (applyAct s a)
      exact ih j (applyAct s a) (by simpa using h)

theorem ssHandlerExec_ge (i : Nat) (h : 7 ≤ i) :
    ssHandlerExec (some i) = ssHandlerExec none := by
  unfold ssHandlerExec
  rw [runTry_ge_length ssTryActs i ExecState.init (by simpa [ssTryActs] using h)]

theorem recHandlerExec_ge (i : Nat) (h : 12 ≤ i) :
    recHandlerExec (some i) = recHandlerExec none := by
  unfold recHandlerExec
  rw [runTry_ge_length recTryActs i ExecState.init (by simpa [recTryActs] using h)]

/-- Claim C5 (counterexample).  The claim says every job that acquires a
context releases it exactly once on every exit path, including an
exception thrown during persistence.  In the screenrecord handler the
context is closed explicitly inside the try block before the recording
file is read; when `fs.readFileSync` (statement index 9) then throws, the
catch clause runs `if (context) await context.close()` on the still-truthy
`context` variable and close is invoked a second time. -/
theorem C5_counterexample :
    (recHandlerExec (some 9)).acquires = 1 ∧
    (recHandlerExec (some 9)).closes = 2 := by
  constructor <;> rfl

/-- Claim C5 (amended).  In every execution that acquires a context:
the screenshot handler invokes close exactly once on every exit path
(success or a throw anywhere in its try block), thanks to its finally
clause; the screenrecord handler invokes close at least once and at most
twice on every such path, and exactly once unless a statement at or after
the explicit in-try close (video.path, readFileSync, send, unlinkSync)
throws, in which case the idempotent-safe close is invoked a second time
by the catch clause. -/
theorem C5_amended (fs fr : Option Nat)
    (hs : (ssHandlerExec fs).ctx = true)
    (hr : (recHandlerExec fr).ctx = true) :
    (ssHandlerExec fs).closes = 1 ∧
    (recHandlerExec fr).closes = (if failAfterClose fr then 2 else 1) := by
  constructor
  · cases fs with
    | none => rfl
    | some i =>
      by_cases hlt : i < 7
      · interval_cases i <;> revert hs <;> decide
      · rw [ssHandlerExec_ge i (by omega)]
        rfl
  · cases fr with
    | none => rfl
    | some i =>
      by_cases hlt : i < 12
      · interval_cases i <;> revert hr <;> decide
      · rw [recHandlerExec_ge i (by omega)]
        have hfa : failAfterClose (some i) = false := by
          simp only [failAfterClose, Bool.and_eq_false_iff, decide_eq_false_iff_not]
          omega
        rw [hfa]
        rfl

/-- Claim C5 (witness): the amended theorem on the two fully successful
executions — each handler acquires one context and closes it exactly
once. -/
theorem C5_amended_witness :
    (ssHandlerExec none).closes = 1 ∧
    (recHandlerExec none).closes = (if failAfterClose none then 2 else 1) :=
  C5_amended none none rfl rfl

/-- HTTP-level outcome of a screenshot request in the primary variant. -/
inductive SSResult where
  | badRequest (msg : String)
  | pngResponse
  | serverError (msg : String)
deriving DecidableEq, Repr

/-- the full /api/screenshot request of index.js lines 95-134: run
`validateInput` (a pure function of the url, the device and the static
`deviceConfigs` table) and answer 400 immediately on failure, before the
try block; only on success is the try block entered, acquiring a context.
Returns the HTTP outcome together with the resource bookkeeping. -/
def ssRequest (url : RawUrl) (device : String) (failAt : Option Nat) :
    SSResult × ExecState :=
  match validateInput url device with
  | some m => (.badRequest m, ExecState.init)
  | none =>
    ((if (runTry ssTryActs failAt ExecState.init).2 then
        SSResult.serverError "Screenshot failed"
      else SSResult.pngResponse),
     ssHandlerExec failAt)

/-- Claim C6.  Validation is pure — `validateInput` is a total function of
the url, the device string and the static `deviceConfigs` table, with no
state in the model to affect — and whenever it fails, the request answers
with exactly that validation error and the handler body never runs: no
browsing context is acquired, the engine is never touched. -/
theorem C6_validation_pure (url : RawUrl) (device : String) (failAt : Option Nat)
    (m : String) (hv : validateInput url device = some m) :
    ssRequest url device failAt = (SSResult.badRequest m, ExecState.init) ∧
    (ssRequest url device failAt).2.acquires = 0 := by
  unfold ssRequest
  rw [hv]
  exact ⟨rfl, rfl⟩

/-- Claim C6 (witness): the end-to-end scenario of the spec — a request for
http://127.0.0.1 in screenshot mode gets the BlockedHost validation error
and no context is ever acquired. -/
theorem C6_validation_pure_witness :
    ssRequest (RawUrl.wellFormed "127.0.0.1") "desktop" none =
      (SSResult.badRequest "Local or internal URLs are not allowed",
       ExecState.init) ∧
    (ssRequest (RawUrl.wellFormed "127.0.0.1") "desktop" none).2.acquires = 0 :=
  C6_validation_pure (RawUrl.wellFormed "127.0.0.1") "desktop" none
    "Local or internal URLs are not allowed" rfl

/-- index.js lines 85-91: `let browser;` followed by an async IIFE that
assigns it only once `chromium.launch` resolves.  A request served before
resolution sees `browser === undefined` (`none` here); the handlers
dereference the global without any readiness check, so
`browser.newContext()` then throws a TypeError as the first statement of
the try block — the same as a failure at index 0 — and the catch clause
answers a generic 500 'Screenshot failed' body, identical to any other
capture failure; no EngineLaunchFailed branch exists. -/
def ssRequestWithBrowser (browser : Option Unit) (url : RawUrl) (device : String)
    (failAt : Option Nat) : SSResult × ExecState :=
  match browser with
  | none => ssRequest url device (some 0)
  | some _ => ssRequest url device failAt

/-- Claim C10.  For any request passing validation that is served before
the asynchronous engine launch resolves, the undefined browser handle
makes the job fail with the generic 500 'Screenshot failed' error — the
very outcome a mid-capture crash produces (second conjunct compares it
with a navigation failure), not a distinct handled EngineLaunchFailed
result — and no context is acquired. -/
theorem C10_prelaunch_500 (url : RawUrl) (device : String) (failAt : Option Nat)
    (hv : validateInput url device = none) :
    ssRequestWithBrowser none url device failAt =
      (SSResult.serverError "Screenshot failed", ExecState.init) ∧
    (ssRequestWithBrowser none url device failAt).1 =
      (ssRequestWithBrowser (some ()) url device (some 3)).1 := by
  unfold ssRequestWithBrowser ssRequest
  rw [hv]
  exact ⟨rfl, rfl⟩

/-- Claim C10 (witness): the theorem at a concrete valid request served
before the launch resolves. -/
theorem C10_prelaunch_500_witness :
    ssRequestWithBrowser none (RawUrl.wellFormed "example.com") "desktop" none =
      (SSResult.serverError "Screenshot failed", ExecState.init) ∧
    (ssRequestWithBrowser none (RawUrl.wellFormed "example.com") "desktop" none).1 =
      (ssRequestWithBrowser (some ()) (RawUrl.wellFormed "example.com") "desktop"
        (some 3)).1 :=
  C10_prelaunch_500 (RawUrl.wellFormed "example.com") "desktop" none rfl

/-- one capture job as the part_000 endpoints see it: the job's identity
(two concurrent jobs are distinct jobs), its request parameters, and the
value `Date.now()` returned at the top of the handler (millisecond
resolution). -/
structure SSJob where
  id : Nat
  urlHost : String
  device : String
  nowMs : Nat
deriving DecidableEq, Repr

/-- the artifact filename of part_000 lines 102-103:
screenshot-<device>-<timestamp>.png where timestamp is `Date.now()`;
nothing else — not the url, not any per-job random or sequence
component — enters the name. -/
def SSJob.filename (j : SSJob) : String :=
  "screenshot-" ++ j.device ++ "-" ++ toString j.nowMs ++ ".png"

/-- the recording filename of part_000 lines 133-134:
record-<device>-<timestamp>.webm, likewise derived from `Date.now()`
alone. -/
def SSJob.recFilename (j : SSJob) : String :=
  "record-" ++ j.device ++ "-" ++ toString j.nowMs ++ ".webm"

/-- Claim C7 (code bug).  The claim — and the spec, which calls
timestamp-only naming a known defect class — requires artifact identifiers
of concurrent jobs never to collide.  The filenames are functions of the
device and the millisecond clock alone, so two distinct concurrent jobs
that start in the same millisecond with the same device produce the same
identifier, for both the screenshot and the recording endpoint: the later
writer overwrites the earlier artifact at the shared path. -/
theorem C7_code_bug :
    (SSJob.mk 1 "example.com" "phone" 1700000000000).id ≠
      (SSJob.mk 2 "example.com" "phone" 1700000000000).id ∧
    (SSJob.mk 1 "example.com" "phone" 1700000000000).filename =
      (SSJob.mk 2 "example.com" "phone" 1700000000000).filename ∧
    (SSJob.mk 1 "example.com" "phone" 1700000000000).recFilename =
      (SSJob.mk 2 "example.com" "phone" 1700000000000).recFilename := by
  refine ⟨by decide, rfl, rfl⟩

/-- one entry of the scratch directory as `cleanupTempFiles` walks it: the
name `readdirSync` listed, the file's modification time in epoch
milliseconds, and whether the file is still present when the walk reaches
it (`present = false` models a file deleted by a concurrent request
between the listing and the statSync/unlinkSync calls, both of which then
throw ENOENT). -/
structure TempFile where
  name : String
  mtimeMs : Nat
  present : Bool
deriving DecidableEq, Repr

/-- the retention window `maxAge = 30 * 60 * 1000` of index.js line 70. -/
def maxAgeMs : Nat := 30 * 60 * 1000

/-- the `forEach` walk inside `cleanupTempFiles` (index.js lines 72-77)
without the surrounding try/catch: stat each listed file, unlink it when
`now - mtime > maxAge`.  Returns the names unlinked and whether an ENOENT
exception was thrown (which also aborts the rest of the walk).  `now` and
`mtimeMs` are Nat; JS computes a negative difference for a file younger
than `now` dated in the future, and `Nat` truncation at 0 agrees with it
on the comparison against `maxAge`. -/
def sweepScan (now : Nat) : List TempFile → List String × Bool
  | [] => ([], false)
  | f :: rest =>
    if f.present = false then ([], true)
    else if now - f.mtimeMs > maxAgeMs then
      let r := sweepScan now rest
      (f.name :: r.1, r.2)
    else sweepScan now rest

/-- `cleanupTempFiles` of index.js lines 68-79: the walk wrapped in
`try { ... } catch {}` — whatever the walk threw is swallowed, so no error
ever escapes to the periodic timer that calls it. -/
def cleanupTempFiles (now : Nat) (files : List TempFile) : List String × Bool :=
  ((sweepScan now files).1, false)

/-- Claim C8.  A sweep over a directory holding one file older than the
30-minute retention window and one newer (in either listing order, both
present) deletes exactly the older file and leaves the newer; and for any
directory contents whatsoever — including a listed file that disappeared
before the walk reached it — no error escapes the sweep. -/
theorem C8_sweep (now : Nat) (a b : TempFile) (files : List TempFile)
    (ha : a.present = true) (hb : b.present = true)
    (hold : now - a.mtimeMs > maxAgeMs) (hnew : ¬ now - b.mtimeMs > maxAgeMs) :
    cleanupTempFiles now [a, b] = ([a.name], false) ∧
    cleanupTempFiles now [b, a] = ([a.name], false) ∧
    (cleanupTempFiles now files).2 = false := by
  refine ⟨?_, ?_, rfl⟩ <;>
    simp [cleanupTempFiles, sweepScan, ha, hb, hold, hnew]

/-- Claim C8 (witness): the theorem 31 minutes into the epoch, on a file
from time zero, a fresh file, and a directory whose second listed file
has vanished before the walk reaches it. -/
theorem C8_sweep_witness :
    cleanupTempFiles 1860000 [⟨"old.webm", 0, true⟩, ⟨"new.png", 1859000, true⟩] =
      (["old.webm"], false) ∧
    cleanupTempFiles 1860000 [⟨"new.png", 1859000, true⟩, ⟨"old.webm", 0, true⟩] =
      (["old.webm"], false) ∧
    (cleanupTempFiles 1860000
      [⟨"old2.webm", 0, true⟩, ⟨"gone.png", 0, false⟩]).2 = false :=
  C8_sweep 1860000 ⟨"old.webm", 0, true⟩ ⟨"new.png", 1859000, true⟩
    [⟨"old2.webm", 0, true⟩, ⟨"gone.png", 0, false⟩]
    rfl rfl (by norm_num [maxAgeMs]) (by norm_num [maxAgeMs])

/-- the scratch directory as an association list from file path to file
bytes (bytes abstracted as a string). -/
def FS : Type := List (String × String)

/-- `fs.readFileSync(p)`: the bytes at path p, or `none` when the path is
absent (the JS call then throws ENOENT). -/
def readFileSync (fs : FS) (p : String) : Option String :=
  (List.find? (fun e => e.1 == p) fs).map (fun e => e.2)

/-- `fs.unlinkSync(p)`: the directory without the entry at path p. -/
def unlinkSync (fs : FS) (p : String) : FS :=
  List.filter (fun e => !(e.1 == p)) fs

/-- the HTTP response the screenrecord success tail produces. -/
structure RecResponse where
  status : Nat
  videoBody : Option String
deriving DecidableEq, Repr

/-- the success tail of /api/screenrecord in index.js (lines 172-182),
entered after the context has been closed and `video.path()` resolved:
`fs.readFileSync(videoPath)` loads the recording, the bytes are streamed
as the 200 response body, and `fs.unlinkSync(videoPath)` then removes the
artifact from the scratch directory.  When the read throws instead, the
catch clause answers 500 with no payload and no unlink happens here. -/
def recFinish (fs : FS) (videoPath : String) : RecResponse × FS :=
  match readFileSync fs videoPath with
  | none => (⟨500, none⟩, fs)
  | some buf => (⟨200, some buf⟩, unlinkSync fs videoPath)

theorem unlinkSync_cons_self (e : String × String) (rest : FS) (p : String)
    (he : e.1 = p) : unlinkSync (e :: rest) p = unlinkSync rest p := by
  simp [unlinkSync, List.filter_cons, he]

theorem unlinkSync_cons_other (e : String × String) (rest : FS) (p : String)
    (he : ¬ e.1 = p) : unlinkSync (e :: rest) p = e :: unlinkSync rest p := by
  simp [unlinkSync, List.filter_cons, he]

theorem readFileSync_unlinkSync_self (fs : FS) (p : String) :
    readFileSync (unlinkSync fs p) p = none := by
  induction fs with
  | nil => rfl
  | cons e rest ih =>
    by_cases he : e.1 = p
    · rw [unlinkSync_cons_self e rest p he]
      exact ih
    · rw [unlinkSync_cons_other e rest p he]
      unfold readFileSync
      rw [List.find?_cons_of_neg _ (by simp [he])]
      exact ih

theorem readFileSync_unlinkSync_other (fs : FS) (p q : String) (h : q ≠ p) :
    readFileSync (unlinkSync fs p) q = readFileSync fs q := by
  induction fs with
  | nil => rfl
  | cons e rest ih =>
    by_cases he : e.1 = p
    · rw [unlinkSync_cons_self e rest p he]
      have h2 : readFileSync (e :: rest) q = readFileSync rest q := by
        unfold readFileSync
        rw [List.find?_cons_of_neg _ ?_]
        simp only [beq_iff_eq, he]
        exact fun hpq => h hpq.symm
      rw [h2]
      exact ih
    · rw [unlinkSync_cons_other e rest p he]
      by_cases hq : e.1 = q
      · unfold readFileSync
        rw [List.find?_cons_of_pos _ (by simp [hq]),
          List.find?_cons_of_pos _ (by simp [hq])]
      · unfold readFileSync
        rw [List.find?_cons_of_neg _ (by simp [hq]),
          List.find?_cons_of_neg _ (by simp [hq])]
        exact ih

/-- Claim C9.  In the ephemeral mode of the primary variant, a recording
artifact present in the scratch directory is streamed as the body of a
successful 200 response and deleted immediately afterwards: the finished
request leaves no entry at the artifact's path, while every other path in
the scratch directory is untouched. -/
theorem C9_ephemeral_delete (fs : FS) (videoPath buf q : String)
    (hread : readFileSync fs videoPath = some buf) (hq : q ≠ videoPath) :
    (recFinish fs videoPath).1 = ⟨200, some buf⟩ ∧
    readFileSync (recFinish fs videoPath).2 videoPath = none ∧
    readFileSync (recFinish fs videoPath).2 q = readFileSync fs q := by
  unfold recFinish
  rw [hread]
  exact ⟨rfl, readFileSync_unlinkSync_self fs videoPath,
    readFileSync_unlinkSync_other fs videoPath q hq⟩

/-- Claim C9 (witness): the theorem on a scratch directory holding the
fresh recording and one unrelated artifact. -/
theorem C9_ephemeral_delete_witness :
    (recFinish [("a.webm", "VIDEOBYTES"), ("b.png", "IMAGEBYTES")] "a.webm").1 =
      ⟨200, some "VIDEOBYTES"⟩ ∧
    readFileSync
      (recFinish [("a.webm", "VIDEOBYTES"), ("b.png", "IMAGEBYTES")] "a.webm").2
      "a.webm" = none ∧
    readFileSync
      (recFinish [("a.webm", "VIDEOBYTES"), ("b.png", "IMAGEBYTES")] "a.webm").2
      "b.png" =
      readFileSync [("a.webm", "VIDEOBYTES"), ("b.png", "IMAGEBYTES")] "b.png" :=
  C9_ephemeral_delete [("a.webm", "VIDEOBYTES"), ("b.png", "IMAGEBYTES")]
    "a.webm" "VIDEOBYTES" "b.png" rfl (by decide)
